import Mathlib

/-!
Verification of the keno highlight monitor (src/bot.py, src/app.py,
src/web_server.py) against its natural-language specification.

Shallow embedding conventions:
  - Python sets of small integers become `Finset ℕ`; timestamps become `ℤ`
    (seconds); Python dict/instance state becomes Lean structures.
  - The external collaborators (the `requests` fetch, the `re`/BeautifulSoup
    extraction engines, the Telegram delivery) are modelled at their interface
    boundary: a fetch outcome is an `Option`, the extraction engines are
    represented by the list of digit-group strings they yield, and delivery
    success is a `Bool` oracle.  Everything the repository's own code does with
    those results (range guards, set accumulation, false-positive filtering,
    dedup/cooldown decisions, counter bookkeeping, loop guards) is translated
    directly from the source.
-/

/-! ## Monitor instance state (class KenoCloudMonitor, src/bot.py lines 25-55)

A fresh instance has `last_detected_numbers = set()` and `last_alert_time = 0`
(bot.py lines 36-37); `alert_cooldown = 10` (line 38). -/

structure Monitor where
  last_detected : Finset ℕ
  last_alert_time : ℤ
deriving DecidableEq

def init_monitor : Monitor := ⟨∅, 0⟩

def alert_cooldown : ℤ := 10

inductive MessageType where
  | bright
  | status
deriving DecidableEq

/-- Embedding of `send_telegram_alert` (bot.py lines 139-168).  `now` is the
value of `time.time()`; `sendOk` tells whether the external
`bot.send_message` call succeeds (its exception is caught on line 167, so the
function always returns normally).  The returned `Bool` records whether the
message was actually delivered.  Note that for a "bright" message the field
`last_alert_time` is assigned on line 152, BEFORE the send on line 156, so it
is updated even when the delivery subsequently fails. -/
def send_telegram_alert (m : Monitor) (numbers : Finset ℕ) (t : MessageType)
    (now : ℤ) (sendOk : Bool) : Monitor × Bool :=
  if numbers = ∅ ∧ t = MessageType.bright then (m, false)
  else if t = MessageType.bright ∧ now - m.last_alert_time < alert_cooldown then (m, false)
  else ((if t = MessageType.bright then { m with last_alert_time := now } else m), sendOk)

/-- Embedding of `single_check` (bot.py lines 170-186).  `fetched` is `none`
when `fetch_website_content` returned `None` (every fetch error is caught on
lines 64-75 and mapped to `None`), and `some nums` when it returned markup on
which `detect_bright_numbers` yielded `nums`.  The guard on lines 177-179 is
`current_numbers and current_numbers != self.last_detected_numbers and
1 <= len(current_numbers) <= 15`; on that branch the alert is attempted and
then `self.last_detected_numbers = current_numbers` is executed (line 183)
unconditionally, since `send_telegram_alert` never raises.  The returned
`Bool` records whether a bright alert was delivered during this tick. -/
def single_check (m : Monitor) (fetched : Option (Finset ℕ)) (now : ℤ)
    (sendOk : Bool) : Monitor × Bool :=
  match fetched with
  | none => (m, false)
  | some nums =>
    if nums ≠ ∅ ∧ nums ≠ m.last_detected ∧ 1 ≤ nums.card ∧ nums.card ≤ 15 then
      ({ (send_telegram_alert m nums MessageType.bright now sendOk).1 with
          last_detected := nums },
       (send_telegram_alert m nums MessageType.bright now sendOk).2)
    else (m, false)

/-! ## Highlight detector (detect_bright_numbers, src/bot.py lines 77-137)

The regex and BeautifulSoup scans (strategies 1 and 2, lines 86-121) are the
external extraction engines; `tokens` is the list of digit-group strings they
produce from the markup.  The repository code's own contribution — the
`isdigit` / range guard on each token (lines 98, 116), the accumulation into
one set, the empty-markup early return (line 79) and the false-positive
filter (lines 123-131) — is translated below. -/

/-- Python's `group.isdigit()` test followed by `int(group)`: a nonempty
all-digit token parses to its decimal value, anything else to `none`. -/
def token_to_nat? (s : String) : Option ℕ :=
  if s.data ≠ [] ∧ s.data.all Char.isDigit then
    some (s.data.foldl (fun n c => n * 10 + (c.toNat - 48)) 0)
  else none

/-- One accumulation step: bot.py lines 97-99 / 114-117 add `int(group)` to
the candidate set only when the token is all digits and the value lies in
[1, 80]. -/
def add_candidate (acc : Finset ℕ) (s : String) : Finset ℕ :=
  match token_to_nat? s with
  | some n => if 1 ≤ n ∧ n ≤ 80 then insert n acc else acc
  | none => acc

/-- The merged candidate set produced by the scanning strategies. -/
def gather_candidates (tokens : List String) : Finset ℕ :=
  tokens.foldl add_candidate ∅

/-- The false-positive filter of bot.py lines 123-131: a set of more than 15
members is discarded, and a nonempty set with minimum 1, maximum at least 10
and at least 8 members is discarded (sequential grid-fragment signature). -/
def filter_false_positives (s : Finset ℕ) : Finset ℕ :=
  if 15 < s.card then ∅
  else if s.Nonempty ∧ s.min = (1 : WithTop ℕ) ∧ (10 : WithBot ℕ) ≤ s.max ∧ 8 ≤ s.card then ∅
  else s

/-- Embedding of `detect_bright_numbers` (bot.py lines 77-137): empty markup
(falsy `html_content`, line 79) yields the empty set; otherwise the merged
candidates pass through the false-positive filter.  All internal exceptions
are caught (lines 100, 118, 135), so the function is total. -/
def detect_bright_numbers (html : String) (tokens : List String) : Finset ℕ :=
  if html = "" then ∅
  else filter_false_positives (gather_candidates tokens)

/-! ## app.py detector (detect_bright_numbers, src/app.py lines 51-123)

The variant in src/app.py additionally has a whole-page fallback (lines
107-116): when the attribute and container strategies produced nothing, it
collects every regex match of `\b([1-9]|[1-7][0-9]|80)\b` over the raw markup
— that alternation matches exactly the canonical decimal forms of 1..80, so
`page_numbers` is modelled as the list of matched values — and accepts the
distinct set when its size is within 1..15.  The final return (line 119)
applies no further filter. -/

def app_detect_bright_numbers (html : String) (earlier : Finset ℕ)
    (page_numbers : List ℕ) : Finset ℕ :=
  if html = "" then ∅
  else if earlier = ∅ then
    (if 1 ≤ page_numbers.toFinset.card ∧ page_numbers.toFinset.card ≤ 15 then
       page_numbers.toFinset
     else ∅)
  else earlier

/-! ## Supervisor loop (super_robust_monitor, src/bot.py lines 197-265)

The loop is embedded as a transition system driven by an oracle stream of
events.  One `TickEvent` is one pass of the inner `while` body (lines
224-252): `tick fetched now sendOk` is a pass in which `single_check`
completes normally — `fetched` is its fetch outcome, which is `none` whenever
`fetch_website_content` failed, since every fetch error is caught and mapped
to `None` (lines 64-75) and every error inside `single_check` is caught as
well (lines 185-186) — and `raise` is a pass in which an exception escapes
`single_check` into the `except` of lines 248-252.  One `OuterEvent` is one
pass of the outer `while` body (lines 205-262): `ctorFail` is a pass in
which `KenoCloudMonitor()` raises (e.g. missing credentials, line 32),
handled on lines 258-262; `ctorOk ticks` is a pass that constructs a fresh
monitor (line 208) and runs the inner loop on `ticks`. -/

inductive TickEvent where
  | tick (fetched : Option (Finset ℕ)) (now : ℤ) (sendOk : Bool)
  | raise
deriving DecidableEq

/-- The atomic state-changing steps of the supervisor, used to characterise
which events a run actually processed: a completed tick, an exception at the
tick boundary, an outer constructor failure, and the inner-loop entry that
installs a fresh monitor instance. -/
inductive Atom where
  | tickA (fetched : Option (Finset ℕ)) (now : ℤ) (sendOk : Bool)
  | raiseA
  | ctorFailA
  | enterA
deriving DecidableEq

/-- The supervisor's combined mutable state: the fields of the global
`monitor_state` dict that the loop touches (`active`, `restart_count`,
`total_checks`), the locals of `super_robust_monitor` (`check_count`,
`error_count`, `inner_errors`, bot.py lines 201-202, 217) and the current
`KenoCloudMonitor` instance. -/
structure LoopState where
  active : Bool
  restart_count : ℕ
  total_checks : ℕ
  check_count : ℕ
  error_count : ℕ
  inner_errors : ℕ
  monitor : Monitor
deriving DecidableEq

def max_errors : ℕ := 50

def max_inner_errors : ℕ := 10

/-- Effect of one atomic step on the supervisor state, translated from
bot.py: a completed tick runs `single_check` and then executes lines
228-232 and 235-240 (counter bookkeeping, both error counters reset to 0);
a tick-boundary exception executes lines 248-252 (`inner_errors += 1`,
`error_count += 1`); an outer failure executes lines 258-262
(`error_count += 1`, `restart_count += 1`); inner-loop entry executes lines
208 and 217 (fresh monitor instance, `inner_errors = 0`). -/
def atom_step (st : LoopState) (a : Atom) : LoopState :=
  match a with
  | .tickA fetched now sendOk =>
    { st with
      monitor := (single_check st.monitor fetched now sendOk).1,
      total_checks := st.total_checks + 1,
      check_count := if (st.check_count + 1) % 50 = 0 then 0 else st.check_count + 1,
      inner_errors := 0,
      error_count := 0 }
  | .raiseA =>
    { st with inner_errors := st.inner_errors + 1, error_count := st.error_count + 1 }
  | .ctorFailA =>
    { st with error_count := st.error_count + 1, restart_count := st.restart_count + 1 }
  | .enterA => { st with monitor := init_monitor, inner_errors := 0 }

def tick_atom : TickEvent → Atom
  | .tick fetched now sendOk => .tickA fetched now sendOk
  | .raise => .raiseA

def inner_step (st : LoopState) (e : TickEvent) : LoopState :=
  atom_step st (tick_atom e)

/-- The inner `while` loop of bot.py lines 220-252: its guard (lines
220-222) is `monitor_state["active"] and inner_errors < max_inner_errors and
error_count < max_errors`; the loop consumes the oracle stream while the
guard holds. -/
def super_robust_inner_loop (st : LoopState) : List TickEvent → LoopState
  | [] => st
  | e :: es =>
    if st.active = true ∧ st.inner_errors < max_inner_errors ∧
        st.error_count < max_errors then
      super_robust_inner_loop (inner_step st e) es
    else st

inductive OuterEvent where
  | ctorFail
  | ctorOk (ticks : List TickEvent)
deriving DecidableEq

def outer_step (st : LoopState) (oe : OuterEvent) : LoopState :=
  match oe with
  | .ctorFail => atom_step st .ctorFailA
  | .ctorOk ticks => super_robust_inner_loop (atom_step st .enterA) ticks

/-- The outer `while` loop of bot.py lines 205-262: its guard (line 205) is
`monitor_state["active"] and error_count < max_errors`. -/
def super_robust_monitor (st : LoopState) : List OuterEvent → LoopState
  | [] => st
  | oe :: os =>
    if st.active = true ∧ st.error_count < max_errors then
      super_robust_monitor (outer_step st oe) os
    else st

/-- The full sequence of atomic steps an outer event stream offers. -/
def flatten_events : List OuterEvent → List Atom
  | [] => []
  | .ctorFail :: os => .ctorFailA :: flatten_events os
  | .ctorOk ticks :: os => .enterA :: (ticks.map tick_atom ++ flatten_events os)

/-- A successful tick: a pass of the inner loop body in which `single_check`
completed normally (including the fetch-failed case). -/
def is_success_atom : Atom → Bool
  | .tickA _ _ _ => true
  | _ => false

/-- An error event: an exception at the tick boundary or an outer failure,
the two places where `error_count` is incremented. -/
def is_error_atom : Atom → Bool
  | .raiseA => true
  | .ctorFailA => true
  | _ => false

def init_loop_state : LoopState :=
  { active := true, restart_count := 0, total_checks := 0, check_count := 0,
    error_count := 0, inner_errors := 0, monitor := init_monitor }

/-! ## Outermost recovery (never_die_monitor, src/bot.py lines 267-307)

`never_die_monitor` is `while True:` around `asyncio.run(super_robust_monitor())`.
One `RunOutcome` is the way one such run ends: `finished` (the coroutine
returned, e.g. after `error_count` reached `max_errors`), `crash` (an
exception escaped, handled on lines 279-307 with `restart_count += 1` and a
delayed retry), or `interrupt` (KeyboardInterrupt, line 276: the explicit
external stop signal, the only `break`). -/

inductive RunOutcome where
  | finished
  | crash
  | interrupt
deriving DecidableEq

structure NDState where
  stopped : Bool
  restart_count : ℕ
deriving DecidableEq

def never_die_step (st : NDState) (o : RunOutcome) : NDState :=
  match o with
  | .finished => st
  | .crash => { st with restart_count := st.restart_count + 1 }
  | .interrupt => { st with stopped := true }

def never_die_monitor (st : NDState) : List RunOutcome → NDState
  | [] => st
  | o :: os =>
    if st.stopped = true then st
    else never_die_monitor (never_die_step st o) os

/-! ## Status surface (Flask /health endpoint, src/bot.py lines 359-368) -/

/-- The global `monitor_state` dict (bot.py lines 189-195) as the /health
handler sees it. -/
structure MonitorStateDict where
  active : Bool
  restart_count : ℕ
  last_restart : ℤ
  total_checks : ℕ
  last_success : ℤ

/-- The JSON object returned by the /health route. -/
structure HealthResponse where
  status : String
  ultimate_mode : Bool
  restart_count : ℕ
  total_checks : ℕ
  uptime_seconds : ℤ

/-- Embedding of the /health handler (bot.py lines 359-368): the "status"
field is the literal string "healthy", independent of the monitor state. -/
def health (ms : MonitorStateDict) (now : ℤ) : HealthResponse :=
  { status := "healthy", ultimate_mode := true,
    restart_count := ms.restart_count, total_checks := ms.total_checks,
    uptime_seconds := now - ms.last_restart }

/-! ## First theorems: the dedup/cooldown behaviour and the detector -/

/-- Helper: every member of the accumulated candidate set is either carried
over from the accumulator or lies in [1, 80]. -/
theorem mem_foldl_add_candidate (tokens : List String) :
    ∀ (acc : Finset ℕ) (n : ℕ), n ∈ tokens.foldl add_candidate acc →
      n ∈ acc ∨ (1 ≤ n ∧ n ≤ 80) := by
  induction tokens with
  | nil => intro acc n h; exact Or.inl h
  | cons t ts ih =>
    intro acc n h
    rcases ih (add_candidate acc t) n h with h1 | h1
    · unfold add_candidate at h1
      split at h1
      · rename_i v hs
        split_ifs at h1 with hv
        · rcases Finset.mem_insert.mp h1 with h2 | h2
          · exact Or.inr (h2 ▸ hv)
          · exact Or.inl h2
        · exact Or.inl h1
      · exact Or.inl h1
    · exact Or.inr h1

/-- Helper: the false-positive filter only ever shrinks the set. -/
theorem filter_false_positives_subset (s : Finset ℕ) :
    filter_false_positives s ⊆ s := by
  unfold filter_false_positives
  split_ifs with h1 h2
  · exact Finset.empty_subset s
  · exact Finset.empty_subset s
  · exact Finset.Subset.refl s

/-- C4: detect is total and range-bounded: for every markup input (including
empty or malformed markup) detect never raises — it is embedded as a total
function, with every internal error branch of the source mapped to the empty
set — and every member of the returned set lies in the range [1, 80]. -/
theorem detect_total_range_bounded (html : String) (tokens : List String)
    (n : ℕ) (h : n ∈ detect_bright_numbers html tokens) : 1 ≤ n ∧ n ≤ 80 := by
  unfold detect_bright_numbers at h
  split_ifs at h with h0
  · exact absurd h (Finset.not_mem_empty n)
  · have hmem : n ∈ gather_candidates tokens :=
      filter_false_positives_subset (gather_candidates tokens) h
    unfold gather_candidates at hmem
    rcases mem_foldl_add_candidate tokens ∅ n hmem with h1 | h1
    · exact absurd h1 (Finset.not_mem_empty n)
    · exact h1

/-- Witness for C4: the token "7" yields the member 7, which is in range. -/
theorem detect_total_range_bounded_witness : 1 ≤ 7 ∧ 7 ≤ 80 :=
  detect_total_range_bounded "a" ["7"] 7 (by decide)

/-- C8: detect is deterministic: two calls of detect on identical markup
(identical raw text and identical extraction results) yield identical sets. -/
theorem detect_deterministic (h1 h2 : String) (t1 t2 : List String)
    (hh : h1 = h2) (ht : t1 = t2) :
    detect_bright_numbers h1 t1 = detect_bright_numbers h2 t2 := by
  rw [hh, ht]

/-- Witness for C8: two identical calls on the markup abstraction agree. -/
theorem detect_deterministic_witness :
    detect_bright_numbers "a" ["7"] = detect_bright_numbers "a" ["7"] :=
  detect_deterministic "a" "a" ["7"] ["7"] rfl rfl

/-- Helper: for a "bright" message, `send_telegram_alert` simplifies to the
empty-check, the cooldown check, and the timestamp update before the send. -/
theorem send_telegram_alert_bright (m : Monitor) (S : Finset ℕ) (now : ℤ)
    (ok : Bool) :
    send_telegram_alert m S MessageType.bright now ok =
      if S = ∅ then (m, false)
      else if now - m.last_alert_time < 10 then (m, false)
      else ({ m with last_alert_time := now }, ok) := by
  unfold send_telegram_alert alert_cooldown
  simp

/-- Helper: `single_check` on fetched content unfolds to its guard. -/
theorem single_check_some (m : Monitor) (S : Finset ℕ) (now : ℤ) (ok : Bool) :
    single_check m (some S) now ok =
      if S ≠ ∅ ∧ S ≠ m.last_detected ∧ 1 ≤ S.card ∧ S.card ≤ 15 then
        ({ (send_telegram_alert m S MessageType.bright now ok).1 with
            last_detected := S },
         (send_telegram_alert m S MessageType.bright now ok).2)
      else (m, false) := rfl

/-- C1 counterexample: from the initial monitor state, detecting the set {7}
at time 100 with a FAILING Telegram delivery nevertheless mutates both dedup
fields — bot.py sets `last_alert_time` (line 152) before the send and sets
`last_detected_numbers` (line 183) after the call, which swallows the
delivery exception (line 167).  This refutes the claim that the two fields
remain unchanged when delivery fails. -/
theorem single_check_failed_send_mutates_state :
    (single_check init_monitor (some {7}) 100 false).1.last_detected ≠
        init_monitor.last_detected ∧
      (single_check init_monitor (some {7}) 100 false).1.last_alert_time ≠
        init_monitor.last_alert_time := by
  constructor
  · decide
  · decide

/-- C1 (amended): the dedup state is updated with the notify ATTEMPT, not
with its success: a failed delivery leaves the monitor state exactly as a
successful one; whenever the alert is warranted and the cooldown has
elapsed, `last_detected` becomes the current set and `last_alert_time`
becomes `now` regardless of delivery success, and when the cooldown has not
elapsed the send is suppressed yet `last_detected` is still updated while
`last_alert_time` is kept. -/
theorem single_check_dedup_update_with_attempt (m : Monitor) (S : Finset ℕ)
    (now : ℤ) (ok : Bool) :
    ((single_check m (some S) now false).1 = (single_check m (some S) now true).1) ∧
    (S ≠ ∅ → S ≠ m.last_detected → S.card ≤ 15 →
      ((10 ≤ now - m.last_alert_time →
          (single_check m (some S) now ok).1 = ⟨S, now⟩) ∧
       (now - m.last_alert_time < 10 →
          (single_check m (some S) now ok).1 = ⟨S, m.last_alert_time⟩))) := by
  constructor
  · rw [single_check_some, single_check_some]
    by_cases hc : S ≠ ∅ ∧ S ≠ m.last_detected ∧ 1 ≤ S.card ∧ S.card ≤ 15
    · rw [if_pos hc, if_pos hc, send_telegram_alert_bright,
        send_telegram_alert_bright]
      split_ifs <;> rfl
    · rw [if_neg hc, if_neg hc]
  · intro hS hne hcard
    have hc : S ≠ ∅ ∧ S ≠ m.last_detected ∧ 1 ≤ S.card ∧ S.card ≤ 15 :=
      ⟨hS, hne, Finset.one_le_card.mpr (Finset.nonempty_iff_ne_empty.mpr hS), hcard⟩
    constructor
    · intro hcool
      rw [single_check_some, if_pos hc, send_telegram_alert_bright,
        if_neg hS, if_neg (by omega)]
    · intro hcool
      rw [single_check_some, if_pos hc, send_telegram_alert_bright,
        if_neg hS, if_pos hcool]

/-- Witness for the amended C1: a concrete failed delivery still records the
detected set and the alert timestamp. -/
theorem single_check_dedup_update_with_attempt_witness :
    (single_check ⟨∅, 0⟩ (some {7}) 100 false).1 = ⟨{7}, 100⟩ :=
  ((single_check_dedup_update_with_attempt ⟨∅, 0⟩ {7} 100 false).2
    (by decide) (by decide) (by decide)).1 (by decide)

/-- C2: the notify decision of `single_check` composed with the guards of
`send_telegram_alert`: a bright alert is delivered in a tick exactly when
the current set is non-empty, differs from `last_detected_numbers`, has at
most 15 members, and at least 10 seconds (the `alert_cooldown`) have passed
since `last_alert_time`; a "status" message is never suppressed by the
cooldown (nor by emptiness). -/
theorem single_check_notify_decision (S : Finset ℕ) (m : Monitor) (now : ℤ) :
    ((single_check m (some S) now true).2 = true ↔
      (S ≠ ∅ ∧ S ≠ m.last_detected ∧ S.card ≤ 15 ∧ 10 ≤ now - m.last_alert_time)) ∧
    (send_telegram_alert m S MessageType.status now true).2 = true := by
  constructor
  · constructor
    · intro h
      rw [single_check_some] at h
      by_cases hc : S ≠ ∅ ∧ S ≠ m.last_detected ∧ 1 ≤ S.card ∧ S.card ≤ 15
      · rw [if_pos hc, send_telegram_alert_bright] at h
        rw [if_neg hc.1] at h
        by_cases h1 : now - m.last_alert_time < 10
        · rw [if_pos h1] at h
          simp at h
        · exact ⟨hc.1, hc.2.1, hc.2.2.2, by omega⟩
      · rw [if_neg hc] at h
        simp at h
    · rintro ⟨hS, hne, hcard, hcool⟩
      have hpos : 1 ≤ S.card :=
        Finset.one_le_card.mpr (Finset.nonempty_iff_ne_empty.mpr hS)
      rw [single_check_some, if_pos ⟨hS, hne, hpos, hcard⟩,
        send_telegram_alert_bright, if_neg hS, if_neg (by omega)]
  · unfold send_telegram_alert
    rw [if_neg (by simp), if_neg (by simp)]

/-- Witness for C2: with a fresh monitor state, the set {7} at time 100 is
delivered. -/
theorem single_check_notify_decision_witness :
    (single_check ⟨∅, 0⟩ (some {7}) 100 true).2 = true :=
  (single_check_notify_decision {7} ⟨∅, 0⟩ 100).1.mpr (by decide)

/-- C3: false-positive suppression postconditions of detect (bot.py lines
123-131): whenever the merged candidate set has more than 15 members the
final output is empty, whenever it has minimum 1, maximum at least 10 and
size at least 8 the final output is empty, and in particular the candidate
set {1, ..., 10} yields the empty output. -/
theorem detect_false_positive_suppression (html : String)
    (tokens : List String) (hh : html ≠ "") :
    (15 < (gather_candidates tokens).card →
      detect_bright_numbers html tokens = ∅) ∧
    (((gather_candidates tokens).min = (1 : WithTop ℕ) ∧
        (10 : WithBot ℕ) ≤ (gather_candidates tokens).max ∧
        8 ≤ (gather_candidates tokens).card) →
      detect_bright_numbers html tokens = ∅) ∧
    (gather_candidates tokens = Finset.Icc 1 10 →
      detect_bright_numbers html tokens = ∅) := by
  have key : ∀ s : Finset ℕ,
      (s.min = (1 : WithTop ℕ) ∧ (10 : WithBot ℕ) ≤ s.max ∧ 8 ≤ s.card) →
      filter_false_positives s = ∅ := by
    rintro s ⟨hmin, hmax, hcard⟩
    have hne : s.Nonempty := by
      rw [Finset.nonempty_iff_ne_empty]
      intro he
      rw [he, Finset.min_empty] at hmin
      exact absurd hmin (by decide)
    unfold filter_false_positives
    split_ifs with h1 h2
    · rfl
    · rfl
    · exact absurd ⟨hne, hmin, hmax, hcard⟩ h2
  unfold detect_bright_numbers
  rw [if_neg hh]
  refine ⟨?_, ?_, ?_⟩
  · intro h
    unfold filter_false_positives
    rw [if_pos h]
  · exact key (gather_candidates tokens)
  · intro he
    rw [he]
    exact key (Finset.Icc 1 10) (by decide)

/-- Witness for C3: sixteen distinct candidates are discarded, and so is the
sequential fragment 1..10. -/
theorem detect_false_positive_suppression_witness :
    detect_bright_numbers "a"
        ["1", "2", "3", "4", "5", "6", "7", "8", "9", "10", "11", "12",
         "13", "14", "15", "16"] = ∅ ∧
      detect_bright_numbers "a"
        ["1", "2", "3", "4", "5", "6", "7", "8", "9", "10"] = ∅ :=
  ⟨(detect_false_positive_suppression "a"
      ["1", "2", "3", "4", "5", "6", "7", "8", "9", "10", "11", "12",
       "13", "14", "15", "16"] (by decide)).1 (by decide),
   (detect_false_positive_suppression "a"
      ["1", "2", "3", "4", "5", "6", "7", "8", "9", "10"] (by decide)).2.2
     (by decide)⟩

/-- C6: the whole-page cardinality fallback of app.py (lines 107-116): when
the earlier strategies produced no candidates, the distinct page-wide
numbers become the highlight set when their count is within 1..15, and the
result is empty when the distinct count exceeds 15. -/
theorem app_whole_page_fallback (html : String) (page_numbers : List ℕ)
    (hh : html ≠ "") :
    ((1 ≤ page_numbers.toFinset.card ∧ page_numbers.toFinset.card ≤ 15) →
      app_detect_bright_numbers html ∅ page_numbers = page_numbers.toFinset) ∧
    (15 < page_numbers.toFinset.card →
      app_detect_bright_numbers html ∅ page_numbers = ∅) := by
  unfold app_detect_bright_numbers
  rw [if_neg hh, if_pos rfl]
  constructor
  · intro hc
    rw [if_pos hc]
  · intro h
    rw [if_neg (by omega)]

/-- Witness for C6: two distinct page numbers are accepted as the highlight
set. -/
theorem app_whole_page_fallback_witness :
    app_detect_bright_numbers "a" ∅ [3, 5] = ([3, 5] : List ℕ).toFinset :=
  (app_whole_page_fallback "a" [3, 5] (by decide)).1 (by decide)

/-! ## Supervisor loop theorems -/

/-- Unfolding equation for the inner loop on a cons cell. -/
theorem super_robust_inner_loop_cons (st : LoopState) (e : TickEvent)
    (es : List TickEvent) :
    super_robust_inner_loop st (e :: es) =
      if st.active = true ∧ st.inner_errors < max_inner_errors ∧
          st.error_count < max_errors then
        super_robust_inner_loop (inner_step st e) es
      else st := rfl

/-- Unfolding equation for the outer loop on a cons cell. -/
theorem super_robust_monitor_cons (st : LoopState) (oe : OuterEvent)
    (os : List OuterEvent) :
    super_robust_monitor st (oe :: os) =
      if st.active = true ∧ st.error_count < max_errors then
        super_robust_monitor (outer_step st oe) os
      else st := rfl

/-- Helper: a run of ticks whose fetch failed is a run of successful ticks —
every pass completes `single_check` normally, so the counters are reset on
every pass and the monitor instance and restart counter are untouched. -/
theorem inner_loop_fetch_fail_run (k : ℕ) :
    ∀ st : LoopState, st.active = true → st.inner_errors = 0 →
      st.error_count = 0 →
      (super_robust_inner_loop st
          (List.replicate k (TickEvent.tick none 0 true))).restart_count =
        st.restart_count ∧
      (super_robust_inner_loop st
          (List.replicate k (TickEvent.tick none 0 true))).inner_errors = 0 ∧
      (super_robust_inner_loop st
          (List.replicate k (TickEvent.tick none 0 true))).error_count = 0 ∧
      (super_robust_inner_loop st
          (List.replicate k (TickEvent.tick none 0 true))).active = true ∧
      (super_robust_inner_loop st
          (List.replicate k (TickEvent.tick none 0 true))).monitor =
        st.monitor := by
  induction k with
  | zero =>
    intro st h1 h2 h3
    exact ⟨rfl, h2, h3, h1, rfl⟩
  | succ n ih =>
    intro st h1 h2 h3
    rw [List.replicate_succ, super_robust_inner_loop_cons,
      if_pos ⟨h1, by simp only [max_inner_errors]; omega,
        by simp only [max_errors]; omega⟩]
    obtain ⟨r1, r2, r3, r4, r5⟩ :=
      ih (inner_step st (TickEvent.tick none 0 true)) h1 rfl rfl
    exact ⟨r1, r2, r3, r4, r5⟩

/-- Helper: a run of tick-boundary exceptions increments both error counters
once per pass and leaves the restart counter untouched. -/
theorem inner_loop_raise_run (k : ℕ) :
    ∀ st : LoopState, st.active = true → st.inner_errors + k ≤ 10 →
      st.error_count + k ≤ 50 →
      (super_robust_inner_loop st
          (List.replicate k TickEvent.raise)).inner_errors =
        st.inner_errors + k ∧
      (super_robust_inner_loop st
          (List.replicate k TickEvent.raise)).restart_count =
        st.restart_count ∧
      (super_robust_inner_loop st
          (List.replicate k TickEvent.raise)).error_count =
        st.error_count + k := by
  induction k with
  | zero =>
    intro st h1 h2 h3
    exact ⟨rfl, rfl, rfl⟩
  | succ n ih =>
    intro st h1 h2 h3
    rw [List.replicate_succ, super_robust_inner_loop_cons,
      if_pos ⟨h1, by simp only [max_inner_errors]; omega,
        by simp only [max_errors]; omega⟩]
    obtain ⟨r1, r2, r3⟩ := ih (inner_step st TickEvent.raise) h1
      (by show st.inner_errors + 1 + n ≤ 10; omega)
      (by show st.error_count + 1 + n ≤ 50; omega)
    refine ⟨?_, r2, ?_⟩
    · rw [r1]; show st.inner_errors + 1 + n = st.inner_errors + (n + 1); omega
    · rw [r3]; show st.error_count + 1 + n = st.error_count + (n + 1); omega

/-- C5 counterexample: from the initial supervisor state, eleven consecutive
fetch failures produce NO backoff transition: each failing fetch is caught
inside `fetch_website_content` and `single_check` completes normally, so the
ticks count as successes (`total_checks` reaches 11, both error counters end
at 0), and the restart counter stays 0 — not 1 as the claim requires. -/
theorem fetch_failures_do_not_trigger_backoff :
    (super_robust_inner_loop init_loop_state
        (List.replicate 11 (TickEvent.tick none 0 true))).restart_count = 0 ∧
    (super_robust_inner_loop init_loop_state
        (List.replicate 11 (TickEvent.tick none 0 true))).inner_errors = 0 ∧
    (super_robust_inner_loop init_loop_state
        (List.replicate 11 (TickEvent.tick none 0 true))).error_count = 0 ∧
    (super_robust_inner_loop init_loop_state
        (List.replicate 11 (TickEvent.tick none 0 true))).total_checks = 11 ∧
    (super_robust_inner_loop init_loop_state
        (List.replicate 11 (TickEvent.tick none 0 true))).active = true := by
  decide

/-- C5 (amended): consecutive fetch failures are absorbed inside the tick —
after 11 of them the supervisor is still in Running with the restart counter
unchanged and both error counters at 0.  A transition to the inner backoff
happens only after 10 consecutive exceptions escaping `single_check` (the
inner threshold), and the backoff re-entry installs a fresh monitor instance
and resets `inner_errors` to 0 WITHOUT incrementing the restart counter. -/
theorem inner_backoff_behavior (st : LoopState) (ha : st.active = true)
    (hi : st.inner_errors < 10) (he : st.error_count < 50) :
    ((super_robust_inner_loop st
        (List.replicate 11 (TickEvent.tick none 0 true))).restart_count =
          st.restart_count ∧
      (super_robust_inner_loop st
        (List.replicate 11 (TickEvent.tick none 0 true))).inner_errors = 0 ∧
      (super_robust_inner_loop st
        (List.replicate 11 (TickEvent.tick none 0 true))).error_count = 0 ∧
      (super_robust_inner_loop st
        (List.replicate 11 (TickEvent.tick none 0 true))).active = true) ∧
    (st.inner_errors = 0 → st.error_count + 10 ≤ 50 →
      ((super_robust_inner_loop st
          (List.replicate 10 TickEvent.raise)).inner_errors = 10 ∧
        (super_robust_inner_loop st
          (List.replicate 10 TickEvent.raise)).restart_count =
            st.restart_count ∧
        (super_robust_inner_loop st
          (List.replicate 10 TickEvent.raise)).error_count =
            st.error_count + 10)) ∧
    ((outer_step st (OuterEvent.ctorOk [])).inner_errors = 0 ∧
      (outer_step st (OuterEvent.ctorOk [])).monitor = init_monitor ∧
      (outer_step st (OuterEvent.ctorOk [])).restart_count =
        st.restart_count) := by
  refine ⟨?_, ?_, rfl, rfl, rfl⟩
  · rw [show (11 : ℕ) = 10 + 1 from rfl, List.replicate_succ,
      super_robust_inner_loop_cons,
      if_pos ⟨ha, by simp only [max_inner_errors]; omega,
        by simp only [max_errors]; omega⟩]
    obtain ⟨r1, r2, r3, r4, _⟩ :=
      inner_loop_fetch_fail_run 10
        (inner_step st (TickEvent.tick none 0 true)) ha rfl rfl
    exact ⟨r1, r2, r3, r4⟩
  · intro hz hb
    obtain ⟨r1, r2, r3⟩ := inner_loop_raise_run 10 st ha (by omega) hb
    refine ⟨?_, r2, r3⟩
    rw [r1, hz]

/-- Witness for the amended C5, at the initial supervisor state. -/
theorem inner_backoff_behavior_witness :
    ((super_robust_inner_loop init_loop_state
        (List.replicate 11 (TickEvent.tick none 0 true))).restart_count =
          init_loop_state.restart_count ∧
      (super_robust_inner_loop init_loop_state
        (List.replicate 11 (TickEvent.tick none 0 true))).inner_errors = 0 ∧
      (super_robust_inner_loop init_loop_state
        (List.replicate 11 (TickEvent.tick none 0 true))).error_count = 0 ∧
      (super_robust_inner_loop init_loop_state
        (List.replicate 11 (TickEvent.tick none 0 true))).active = true) ∧
    ((super_robust_inner_loop init_loop_state
        (List.replicate 10 TickEvent.raise)).inner_errors = 10 ∧
      (super_robust_inner_loop init_loop_state
        (List.replicate 10 TickEvent.raise)).restart_count =
          init_loop_state.restart_count ∧
      (super_robust_inner_loop init_loop_state
        (List.replicate 10 TickEvent.raise)).error_count =
          init_loop_state.error_count + 10) :=
  ⟨(inner_backoff_behavior init_loop_state rfl (by decide) (by decide)).1,
   (inner_backoff_behavior init_loop_state rfl (by decide) (by decide)).2.1
     rfl (by decide)⟩

/-- C7: the outermost recovery never permanently halts without an explicit
external stop signal: for every finite sequence of run outcomes containing
no interrupt — any number of normal returns (e.g. after 50 cumulative
errors) or catastrophic exceptions — the never-die loop is still running,
i.e. it re-enters another monitor run rather than terminating. -/
theorem never_die_monitor_never_halts (st : NDState) (os : List RunOutcome)
    (h0 : st.stopped = false)
    (h1 : ∀ o ∈ os, o ≠ RunOutcome.interrupt) :
    (never_die_monitor st os).stopped = false := by
  induction os generalizing st with
  | nil => exact h0
  | cons o os ih =>
    show (if st.stopped = true then st
          else never_die_monitor (never_die_step st o) os).stopped = false
    rw [if_neg (by rw [h0]; exact Bool.false_ne_true)]
    cases o with
    | finished =>
      exact ih (never_die_step st RunOutcome.finished) h0
        (fun x hx => h1 x (List.mem_cons_of_mem _ hx))
    | crash =>
      exact ih (never_die_step st RunOutcome.crash) h0
        (fun x hx => h1 x (List.mem_cons_of_mem _ hx))
    | interrupt =>
      exact absurd rfl (h1 RunOutcome.interrupt (List.mem_cons_self _ _))

/-- Witness for C7: after a normal return, a crash and another normal
return, the loop is still running. -/
theorem never_die_monitor_never_halts_witness :
    (never_die_monitor ⟨false, 0⟩
        [RunOutcome.finished, RunOutcome.crash, RunOutcome.finished]).stopped =
      false :=
  never_die_monitor_never_halts ⟨false, 0⟩
    [RunOutcome.finished, RunOutcome.crash, RunOutcome.finished] rfl
    (by decide)

/-- C9: the /health endpoint's binary health indicator is the constant
"healthy", whatever the monitor state and clock say — it never reflects
monitor failure. -/
theorem health_always_healthy (ms : MonitorStateDict) (now : ℤ) :
    (health ms now).status = "healthy" := rfl

/-- Helper: the inner loop processes a sublist (in fact a prefix) of the
offered tick events and equals the unguarded fold of the steps over it. -/
theorem inner_loop_processed (es : List TickEvent) :
    ∀ st : LoopState, ∃ p : List TickEvent, p.Sublist es ∧
      super_robust_inner_loop st es = List.foldl inner_step st p := by
  induction es with
  | nil => intro st; exact ⟨[], List.Sublist.refl [], rfl⟩
  | cons e es ih =>
    intro st
    rw [super_robust_inner_loop_cons]
    by_cases hg : st.active = true ∧ st.inner_errors < max_inner_errors ∧
        st.error_count < max_errors
    · rw [if_pos hg]
      obtain ⟨p, hp, hrun⟩ := ih (inner_step st e)
      exact ⟨e :: p, hp.cons₂ e, by rw [List.foldl_cons]; exact hrun⟩
    · rw [if_neg hg]
      exact ⟨[], List.nil_sublist _, rfl⟩

/-- Helper: folding the tick steps equals folding the corresponding atoms. -/
theorem foldl_inner_step_map (p : List TickEvent) :
    ∀ st : LoopState,
      List.foldl inner_step st p = List.foldl atom_step st (p.map tick_atom) := by
  induction p with
  | nil => intro st; rfl
  | cons e p ih =>
    intro st
    rw [List.map_cons, List.foldl_cons, List.foldl_cons]
    exact ih (inner_step st e)

/-- Helper: the outer loop processes a sublist of the flattened atomic
events and equals the unguarded fold of `atom_step` over it. -/
theorem outer_loop_processed (os : List OuterEvent) :
    ∀ st : LoopState, ∃ atoms : List Atom,
      atoms.Sublist (flatten_events os) ∧
      super_robust_monitor st os = List.foldl atom_step st atoms := by
  induction os with
  | nil => intro st; exact ⟨[], List.Sublist.refl _, rfl⟩
  | cons oe os ih =>
    intro st
    rw [super_robust_monitor_cons]
    by_cases hg : st.active = true ∧ st.error_count < max_errors
    · rw [if_pos hg]
      cases oe with
      | ctorFail =>
        obtain ⟨as, hs, he⟩ := ih (outer_step st OuterEvent.ctorFail)
        refine ⟨Atom.ctorFailA :: as, ?_, ?_⟩
        · exact hs.cons₂ Atom.ctorFailA
        · rw [List.foldl_cons]; exact he
      | ctorOk ticks =>
        obtain ⟨p, hp, hrun⟩ := inner_loop_processed ticks (atom_step st Atom.enterA)
        obtain ⟨as, hs, he⟩ := ih (outer_step st (OuterEvent.ctorOk ticks))
        refine ⟨Atom.enterA :: (p.map tick_atom ++ as), ?_, ?_⟩
        · exact ((hp.map tick_atom).append hs).cons₂ Atom.enterA
        · rw [List.foldl_cons, List.foldl_append]
          have hout : outer_step st (OuterEvent.ctorOk ticks) =
              List.foldl atom_step (atom_step st Atom.enterA) (p.map tick_atom) := by
            show super_robust_inner_loop (atom_step st Atom.enterA) ticks = _
            rw [hrun, foldl_inner_step_map]
          rw [he, hout]
    · rw [if_neg hg]
      exact ⟨[], List.nil_sublist _, rfl⟩

/-- Helper: after folding any atomic event list, the cumulative error count
is the number of error events in a success-free suffix of the list (or, when
no successful tick occurred at all, the initial count plus that number). -/
theorem foldl_atom_error_count (atoms : List Atom) :
    ∀ st : LoopState, ∃ a1 a2 : List Atom, atoms = a1 ++ a2 ∧
      (∀ a ∈ a2, is_success_atom a = false) ∧
      ((List.foldl atom_step st atoms).error_count = a2.countP is_error_atom ∨
        (a1 = [] ∧ (List.foldl atom_step st atoms).error_count =
          st.error_count + a2.countP is_error_atom)) := by
  induction atoms with
  | nil =>
    intro st
    exact ⟨[], [], rfl, by intro a ha; exact absurd ha (List.not_mem_nil a),
      Or.inr ⟨rfl, by simp⟩⟩
  | cons a atoms ih =>
    intro st
    obtain ⟨a1, a2, hsplit, hns, hcount⟩ := ih (atom_step st a)
    cases a with
    | tickA f now ok =>
      rcases hcount with hc | ⟨h1nil, hc⟩
      · exact ⟨Atom.tickA f now ok :: a1, a2, by rw [hsplit]; rfl, hns,
          Or.inl (by rw [List.foldl_cons]; exact hc)⟩
      · refine ⟨[Atom.tickA f now ok], a2, ?_, hns, Or.inl ?_⟩
        · rw [h1nil] at hsplit; rw [hsplit]; rfl
        · rw [List.foldl_cons, hc]
          show (0 : ℕ) + a2.countP is_error_atom = a2.countP is_error_atom
          omega
    | raiseA =>
      rcases hcount with hc | ⟨h1nil, hc⟩
      · exact ⟨Atom.raiseA :: a1, a2, by rw [hsplit]; rfl, hns,
          Or.inl (by rw [List.foldl_cons]; exact hc)⟩
      · refine ⟨[], Atom.raiseA :: a2, ?_, ?_, Or.inr ⟨rfl, ?_⟩⟩
        · rw [h1nil] at hsplit; rw [hsplit]; rfl
        · intro x hx
          rcases List.mem_cons.mp hx with h | h
          · rw [h]; rfl
          · exact hns x h
        · rw [List.foldl_cons, hc, List.countP_cons]
          have h1 : (if is_error_atom Atom.raiseA = true then 1 else 0) = 1 := rfl
          show st.error_count + 1 + a2.countP is_error_atom =
            st.error_count + (a2.countP is_error_atom +
              if is_error_atom Atom.raiseA = true then 1 else 0)
          rw [h1]
          omega
    | ctorFailA =>
      rcases hcount with hc | ⟨h1nil, hc⟩
      · exact ⟨Atom.ctorFailA :: a1, a2, by rw [hsplit]; rfl, hns,
          Or.inl (by rw [List.foldl_cons]; exact hc)⟩
      · refine ⟨[], Atom.ctorFailA :: a2, ?_, ?_, Or.inr ⟨rfl, ?_⟩⟩
        · rw [h1nil] at hsplit; rw [hsplit]; rfl
        · intro x hx
          rcases List.mem_cons.mp hx with h | h
          · rw [h]; rfl
          · exact hns x h
        · rw [List.foldl_cons, hc, List.countP_cons]
          have h1 : (if is_error_atom Atom.ctorFailA = true then 1 else 0) = 1 := rfl
          show st.error_count + 1 + a2.countP is_error_atom =
            st.error_count + (a2.countP is_error_atom +
              if is_error_atom Atom.ctorFailA = true then 1 else 0)
          rw [h1]
          omega
    | enterA =>
      rcases hcount with hc | ⟨h1nil, hc⟩
      · exact ⟨Atom.enterA :: a1, a2, by rw [hsplit]; rfl, hns,
          Or.inl (by rw [List.foldl_cons]; exact hc)⟩
      · refine ⟨[], Atom.enterA :: a2, ?_, ?_, Or.inr ⟨rfl, ?_⟩⟩
        · rw [h1nil] at hsplit; rw [hsplit]; rfl
        · intro x hx
          rcases List.mem_cons.mp hx with h | h
          · rw [h]; rfl
          · exact hns x h
        · rw [List.foldl_cons, hc, List.countP_cons]
          have h1 : (if is_error_atom Atom.enterA = true then 1 else 0) = 0 := rfl
          show st.error_count + a2.countP is_error_atom =
            st.error_count + (a2.countP is_error_atom +
              if is_error_atom Atom.enterA = true then 1 else 0)
          rw [h1]
          omega

/-- C10: a single successful tick resets both the consecutive-inner-error
counter and the cumulative outer error counter to zero; consequently the
outer exit bound of 50 errors can only be reached through at least 50 error
events (tick-boundary exceptions or outer failures) among which — and after
which — no successful tick occurred. -/
theorem error_count_reset_and_exit_bound :
    (∀ (st : LoopState) (fetched : Option (Finset ℕ)) (now : ℤ) (ok : Bool),
      (inner_step st (TickEvent.tick fetched now ok)).inner_errors = 0 ∧
      (inner_step st (TickEvent.tick fetched now ok)).error_count = 0) ∧
    (∀ (st : LoopState) (os : List OuterEvent), st.error_count = 0 →
      max_errors ≤ (super_robust_monitor st os).error_count →
      ∃ atoms a1 a2 : List Atom, atoms.Sublist (flatten_events os) ∧
        super_robust_monitor st os = List.foldl atom_step st atoms ∧
        atoms = a1 ++ a2 ∧ (∀ a ∈ a2, is_success_atom a = false) ∧
        max_errors ≤ a2.countP is_error_atom) := by
  constructor
  · intro st f now ok
    exact ⟨rfl, rfl⟩
  · intro st os h0 h50
    obtain ⟨atoms, hsub, hrun⟩ := outer_loop_processed os st
    obtain ⟨a1, a2, hsplit, hns, hcount⟩ := foldl_atom_error_count atoms st
    refine ⟨atoms, a1, a2, hsub, hrun, hsplit, hns, ?_⟩
    rcases hcount with hc | ⟨_, hc⟩
    · rw [hrun, hc] at h50
      exact h50
    · rw [hrun, hc, h0] at h50
      omega

/-- Witness for C10: fifty consecutive constructor failures drive the error
count to the exit bound, and the processed suffix is all errors. -/
theorem error_count_reset_and_exit_bound_witness :
    ∃ atoms a1 a2 : List Atom,
      atoms.Sublist (flatten_events (List.replicate 50 OuterEvent.ctorFail)) ∧
      super_robust_monitor init_loop_state
          (List.replicate 50 OuterEvent.ctorFail) =
        List.foldl atom_step init_loop_state atoms ∧
      atoms = a1 ++ a2 ∧ (∀ a ∈ a2, is_success_atom a = false) ∧
      max_errors ≤ a2.countP is_error_atom :=
  error_count_reset_and_exit_bound.2 init_loop_state
    (List.replicate 50 OuterEvent.ctorFail) rfl (by decide)
